import Mathlib

/-!
Verification of the weather application core (src/weather_app.py): the
resolver layer (`LocationService.get_location_from_ip`,
`WeatherService.get_weather`), the task dispatcher (`AsyncRunner.run`) and
the view-state machine of `WeatherApp` (`_handle_weather_result`,
`_search_city`, `_fetch_weather_by_location`, `_toggle_unit`, retry wiring).

Modelling conventions:
- Python floats that are only copied, never computed with, are modelled as
  `Rat`; strings as `String`; `Optional[T]` as `Option T`.
- JSON objects delivered by the providers are modelled as structures whose
  fields are `Option`-valued: `none` means the key is absent, and the
  subscript access `d["k"]` is `keyGet`, which raises `KeyError k`
  (an uncaught Python exception is the `Except.error` branch).
- A network interaction is an oracle: the weather provider is a function
  from the query string to an `HttpOutcome`; `transportError` stands for
  any `requests.RequestException` raised by `requests.get` (DNS failure,
  connection refused, timeout), `response st body` for a delivered HTTP
  response with status `st`, whose body is `none` when it is not decodable
  JSON (with requests >= 2.27 the resulting JSONDecodeError is a
  `RequestException` and is caught by the resolver).
- `get_weather` also reports how many network requests it performed, so
  that the demo branch (0 calls) is distinguishable from failures (1 call).
-/

namespace Weather

/-- Mirror of the `WeatherData` dataclass (src/weather_app.py lines 39-55). -/
structure WeatherData where
  city : String
  region : String
  country : String
  temp_c : Rat
  temp_f : Rat
  feels_like_c : Rat
  feels_like_f : Rat
  humidity : Int
  wind_kph : Rat
  wind_mph : Rat
  condition : String
  condition_icon : String
  uv : Rat
  last_updated : String
deriving DecidableEq

/-- Mirror of the `LocationData` dataclass (lines 58-64). -/
structure LocationData where
  city : String
  region : String
  country : String
  coordinates : String
deriving DecidableEq

/-- An uncaught Python exception escaping a resolver. The only one the
weather parser can raise is `KeyError` from a subscript on a missing key. -/
inductive PyError where
  | keyError (key : String)
deriving DecidableEq

/-- Subscript access `d[k]` on a JSON object field: raises `KeyError k`
when the key is absent. -/
def keyGet {α : Type} (o : Option α) (k : String) : Except PyError α :=
  match o with
  | some v => Except.ok v
  | none => Except.error (PyError.keyError k)

/-- The nested `condition` object of the weather provider response. -/
structure ConditionJson where
  text : Option String
  icon : Option String
deriving DecidableEq

/-- The `location` object of the weather provider response. -/
structure LocationJson where
  name : Option String
  region : Option String
  country : Option String
deriving DecidableEq

/-- The `current` object of the weather provider response. -/
structure CurrentJson where
  temp_c : Option Rat
  temp_f : Option Rat
  feelslike_c : Option Rat
  feelslike_f : Option Rat
  humidity : Option Int
  wind_kph : Option Rat
  wind_mph : Option Rat
  condition : Option ConditionJson
  uv : Option Rat
  last_updated : Option String
deriving DecidableEq

/-- A decoded weather provider response body. -/
structure WeatherJson where
  location : Option LocationJson
  current : Option CurrentJson
deriving DecidableEq

/-- Outcome of one HTTP request: a raised `requests.RequestException`
(DNS, refused connection, timeout), or a delivered response with a status
code and a body (`none` = body not decodable as a JSON object). -/
inductive HttpOutcome where
  | transportError
  | response (status : Nat) (body : Option WeatherJson)

/-- The sentinel credential value (line 26 of the source). -/
def sentinelKey : String := "YOUR_WEATHERAPI_KEY"

/-- The fixed synthetic reading returned in demo mode (lines 108-123). -/
def demoWeather : WeatherData where
  city := "Demo City"
  region := "Demo Region"
  country := "DC"
  temp_c := 22.5
  temp_f := 72.5
  feels_like_c := 23.0
  feels_like_f := 73.4
  humidity := 65
  wind_kph := 15.0
  wind_mph := 9.3
  condition := "Partly Cloudy"
  condition_icon := "//cdn.weatherapi.com/weather/64x64/day/116.png"
  uv := 5.0
  last_updated := "2024-01-01 12:00"

/-- Field extraction of `WeatherService.get_weather` (lines 134-152):
`data["location"]`, `data["current"]`, then each constructor argument in
source order. Subscripts on absent keys raise `KeyError`, which the
source's `except requests.RequestException` clause does NOT catch. -/
def parseWeatherJson (j : WeatherJson) : Except PyError WeatherData := do
  let location ← keyGet j.location "location"
  let current ← keyGet j.current "current"
  let city ← keyGet location.name "name"
  let region ← keyGet location.region "region"
  let country ← keyGet location.country "country"
  let tc ← keyGet current.temp_c "temp_c"
  let tf ← keyGet current.temp_f "temp_f"
  let flc ← keyGet current.feelslike_c "feelslike_c"
  let flf ← keyGet current.feelslike_f "feelslike_f"
  let hum ← keyGet current.humidity "humidity"
  let wk ← keyGet current.wind_kph "wind_kph"
  let wm ← keyGet current.wind_mph "wind_mph"
  let cond ← keyGet current.condition "condition"
  let ctext ← keyGet cond.text "text"
  let cicon ← keyGet cond.icon "icon"
  let uvv ← keyGet current.uv "uv"
  let lu ← keyGet current.last_updated "last_updated"
  return { city := city, region := region, country := country,
           temp_c := tc, temp_f := tf, feels_like_c := flc, feels_like_f := flf,
           humidity := hum, wind_kph := wk, wind_mph := wm,
           condition := ctext, condition_icon := cicon, uv := uvv,
           last_updated := lu }

/-- Mirror of `WeatherService.get_weather` (lines 98-154), parameterised by
the configured API key and the network oracle. Returns the Python result
(`Except.error` = an exception escaped to the caller) paired with the
number of network requests performed.

Branches, in source order: the sentinel-key check returns the demo reading
before any request; `requests.get` may raise a `RequestException` (caught,
`None`); `raise_for_status` raises `HTTPError` for status >= 400 (caught,
`None`); `response.json()` raises `JSONDecodeError` on an undecodable body
(a `RequestException` in requests >= 2.27, caught, `None`); field
subscripts raise `KeyError` on missing keys (NOT caught). -/
def getWeather (key : String) (net : String → HttpOutcome) (query : String) :
    Except PyError (Option WeatherData) × Nat :=
  if key = sentinelKey then
    (Except.ok (some demoWeather), 0)
  else
    match net query with
    | HttpOutcome.transportError => (Except.ok none, 1)
    | HttpOutcome.response status body =>
      if 400 ≤ status then (Except.ok none, 1)
      else
        match body with
        | none => (Except.ok none, 1)
        | some j => ((parseWeatherJson j).map some, 1)

/-- A decoded ipinfo.io response body (all keys optional; `get_location_from_ip`
fills absent keys with defaults via `dict.get`). -/
structure IpJson where
  city : Option String
  region : Option String
  country : Option String
  loc : Option String
deriving DecidableEq

/-- Outcome of the single ipinfo.io request. -/
inductive IpOutcome where
  | transportError
  | response (status : Nat) (body : Option IpJson)

/-- Mirror of `LocationService.get_location_from_ip` (lines 74-92):
transport failure, HTTP error status (`raise_for_status`, >= 400) and an
undecodable body all collapse to `none`; absent keys in a delivered object
are defaulted (`"Unknown"` for city, `""` for the rest), never a failure. -/
def getLocationFromIp (ip : IpOutcome) : Option LocationData :=
  match ip with
  | IpOutcome.transportError => none
  | IpOutcome.response status body =>
    if 400 ≤ status then none
    else
      match body with
      | none => none
      | some j =>
        some { city := j.city.getD "Unknown", region := j.region.getD "",
               country := j.country.getD "", coordinates := j.loc.getD "" }

/-- The background task built by `WeatherApp._fetch_weather_by_location`
(lines 486-490): run the location resolver; only if it returned a (truthy)
`LocationData` call the weather resolver on its city, else return `None`.
The second component is the number of weather-provider network requests. -/
def fetchByLocationTask (key : String) (ip : IpOutcome)
    (net : String → HttpOutcome) : Except PyError (Option WeatherData) × Nat :=
  match getLocationFromIp ip with
  | some l => getWeather key net l.city
  | none => (Except.ok none, 0)

/-- Which content widget `pack`s inside `content_frame`: the loading
spinner, the weather card, or the error display carrying its current
message (`_show_loading` / `_show_weather` / `_show_error`). -/
inductive Packed where
  | spinner
  | card
  | error (message : String)
deriving DecidableEq

/-- The mutable state of `WeatherApp` relevant to the core: which widget is
packed, the stored `current_weather`, the `use_celsius` preference, and the
reading/unit pair last rendered into the weather card by `update_weather`
(`none` = the card still shows its construction placeholders). -/
structure AppState where
  packed : Packed
  current_weather : Option WeatherData
  use_celsius : Bool
  cardReading : Option (WeatherData × Bool)
deriving DecidableEq

/-- The spec's `ViewState` variants. -/
inductive ViewState where
  | Loading
  | Showing (reading : WeatherData) (celsius : Bool)
  | Failed (message : String)
deriving DecidableEq

/-- The spec-level view of an app state: `Loading` when the spinner is
packed, `Failed` with the shown message when the error display is packed,
`Showing` the card's rendered reading and unit when the card is packed. -/
def specView (s : AppState) : Option ViewState :=
  match s.packed with
  | Packed.spinner => some ViewState.Loading
  | Packed.error m => some (ViewState.Failed m)
  | Packed.card => s.cardReading.map (fun p => ViewState.Showing p.1 p.2)

/-- State of the app right after `__init__` ran `_create_ui`: no stored
weather, Celsius preferred, loading spinner packed, card showing
placeholders. -/
def initialState : AppState :=
  { packed := Packed.spinner, current_weather := none,
    use_celsius := true, cardReading := none }

/-- The error message of `_handle_weather_result` (line 514). -/
def failMessage : String :=
  "Could not fetch weather data.\nCheck your connection or API key."

/-- Mirror of `WeatherApp._handle_weather_result` (lines 507-514). A
`WeatherData` instance is always truthy in Python, so `if weather:` is
exactly the `Option` match: on a reading, store it, render it into the
card with the current unit and pack the card; on `None`, pack the error
display with the fixed message, touching nothing else. -/
def handleWeatherResult (s : AppState) (weather : Option WeatherData) : AppState :=
  match weather with
  | some w =>
    { s with current_weather := some w,
             cardReading := some (w, s.use_celsius),
             packed := Packed.card }
  | none => { s with packed := Packed.error failMessage }

/-- A fetch chain dispatched to `AsyncRunner.run`. -/
inductive Fetch where
  | byLocation
  | search (query : String)
deriving DecidableEq

/-- Mirror of `WeatherApp._fetch_weather_by_location`'s synchronous part
(lines 482-492): show the loading spinner, then dispatch the by-location
chain. Returns the new state and the dispatched chain. -/
def fetchWeatherByLocation (s : AppState) : AppState × Option Fetch :=
  ({ s with packed := Packed.spinner }, some Fetch.byLocation)

/-- The retry control: `ErrorDisplay` is constructed (line 440) with
`self._fetch_weather_by_location` as its permanent retry callback, so
pressing Retry always runs the by-location chain. -/
def retryCommand (s : AppState) : AppState × Option Fetch :=
  fetchWeatherByLocation s

/-- Characters removed by Python's `str.strip()` with no argument
(ASCII whitespace). -/
def isPySpace (c : Char) : Bool :=
  c = ' ' || c = '\t' || c = '\n' || c = '\r' || c = '\x0b' || c = '\x0c'

/-- Python's `str.strip()`: drop leading and trailing whitespace. -/
def pyStrip (q : String) : String :=
  String.mk (((q.data.dropWhile isPySpace).reverse.dropWhile isPySpace).reverse)

/-- Mirror of `WeatherApp._search_city`'s synchronous part (lines 494-505):
strip the entry text; if the result is empty return without touching
anything and without dispatching; otherwise show the loading spinner and
dispatch the search chain on the stripped city. -/
def searchCity (s : AppState) (raw : String) : AppState × Option Fetch :=
  let city := pyStrip raw
  if city = "" then (s, none)
  else ({ s with packed := Packed.spinner }, some (Fetch.search city))

/-- Mirror of `WeatherApp._toggle_unit` (lines 474-480): flip
`use_celsius`; if a current reading is stored, re-render the card from it
under the new unit. The packed widget is not changed (no `_show_weather`
call), and the stored reading is not changed. -/
def toggleUnit (s : AppState) : AppState :=
  let c := !s.use_celsius
  match s.current_weather with
  | some w => { s with use_celsius := c, cardReading := some (w, c) }
  | none => { s with use_celsius := c }

/-- Mirror of `AsyncRunner.run`'s worker (lines 177-183): the callbacks
scheduled onto the interaction context for one task execution. If the task
returns a value `v` (including `None`), `root.after` schedules the
callback once with `v`; if the task raises, the worker thread dies before
`root.after` and nothing is scheduled. -/
def asyncRunnerScheduled {α : Type} (task : Except PyError α) : List α :=
  match task with
  | Except.ok v => [v]
  | Except.error _ => []

/-- Deliver a list of scheduled completions, in order, to
`_handle_weather_result` on the interaction context. -/
def deliverAll (s : AppState) (results : List (Option WeatherData)) : AppState :=
  results.foldl handleWeatherResult s

/-- Stripping a string all of whose characters are whitespace yields the
empty string. -/
theorem pyStrip_eq_empty_of_all_space {q : String}
    (h : ∀ c ∈ q.data, isPySpace c = true) : pyStrip q = "" := by
  unfold pyStrip
  rw [List.dropWhile_eq_nil_iff.mpr h]
  rfl

/-- C7: submitting an empty or whitespace-only search string changes
nothing: the state (packed widget, stored reading, unit preference, card
contents) is returned untouched and no fetch chain is dispatched. -/
theorem search_whitespace_noop (s : AppState) (raw : String)
    (h : ∀ c ∈ raw.data, isPySpace c = true) :
    searchCity s raw = (s, none) := by
  simp [searchCity, pyStrip_eq_empty_of_all_space h]

/-- Witness for C7 at the whitespace-only input of end-to-end scenario 3. -/
theorem search_whitespace_noop_witness :
    searchCity initialState "  " = (initialState, none) :=
  search_whitespace_noop initialState "  " (by decide)

/-- C9: toggling the unit twice is the identity on the whole app state,
given the display invariant that whenever a reading is stored the card
renders exactly that reading under the current unit preference (which
holds in every reachable state; see `handle_establishes_display_invariant`
and `toggle_preserves_display_invariant`). -/
theorem toggle_unit_involutive (s : AppState)
    (h : ∀ w, s.current_weather = some w → s.cardReading = some (w, s.use_celsius)) :
    toggleUnit (toggleUnit s) = s := by
  obtain ⟨p, cw, uc, cr⟩ := s
  cases cw with
  | none => simp [toggleUnit]
  | some w =>
    have hc : cr = some (w, uc) := h w rfl
    subst hc
    simp [toggleUnit]

/-- Witness for C9 at a concrete `Showing` state. -/
theorem toggle_unit_involutive_witness :
    toggleUnit (toggleUnit
      { packed := Packed.card, current_weather := some demoWeather,
        use_celsius := true, cardReading := some (demoWeather, true) }) =
      { packed := Packed.card, current_weather := some demoWeather,
        use_celsius := true, cardReading := some (demoWeather, true) } :=
  toggle_unit_involutive _ (fun w hw => by injection hw with h2; subst h2; rfl)

/-- The display invariant of C9 is established by every successful or
failed completion. -/
theorem handle_establishes_display_invariant (s : AppState) (r : Option WeatherData)
    (h : ∀ w, s.current_weather = some w → s.cardReading = some (w, s.use_celsius)) :
    ∀ w, (handleWeatherResult s r).current_weather = some w →
      (handleWeatherResult s r).cardReading =
        some (w, (handleWeatherResult s r).use_celsius) := by
  cases r with
  | some v =>
    intro w hw
    injection hw with h2
    subst h2
    rfl
  | none => exact h

/-- The display invariant of C9 is preserved by toggling the unit. -/
theorem toggle_preserves_display_invariant (s : AppState)
    (h : ∀ w, s.current_weather = some w → s.cardReading = some (w, s.use_celsius)) :
    ∀ w, (toggleUnit s).current_weather = some w →
      (toggleUnit s).cardReading = some (w, (toggleUnit s).use_celsius) := by
  obtain ⟨p, cw, uc, cr⟩ := s
  cases cw with
  | none => intro w hw; exact absurd hw (by simp [toggleUnit])
  | some v =>
    intro w hw
    have h2 : v = w := by simpa [toggleUnit] using hw
    subst h2
    rfl

/-- C2 (amended): pressing Retry re-enters Loading and always dispatches
the by-location chain, whatever the previous state and whichever chain was
last used — the `ErrorDisplay` retry callback is fixed to
`_fetch_weather_by_location` at construction. -/
theorem retry_reenters_loading_by_location (s : AppState) :
    retryCommand s = ({ s with packed := Packed.spinner }, some Fetch.byLocation) :=
  rfl

/-- C2 (counterexample): after a search for "Paris" — the last-used fetch
chain — fails, the state shows the error display, yet Retry dispatches the
by-location chain, not the search chain on "Paris". -/
theorem retry_ignores_last_search_chain :
    (searchCity initialState "Paris").2 = some (Fetch.search "Paris") ∧
    (handleWeatherResult (searchCity initialState "Paris").1 none).packed =
      Packed.error failMessage ∧
    (retryCommand (handleWeatherResult (searchCity initialState "Paris").1 none)).2 =
      some Fetch.byLocation ∧
    some Fetch.byLocation ≠ some (Fetch.search "Paris") := by
  refine ⟨rfl, rfl, rfl, by decide⟩

/-- C3: when two completions are delivered in sequence to the interaction
context (B first, then A), the final spec-level ViewState is determined by
A, the completion delivered last: `Showing` A's reading under the current
unit preference on a reading, `Failed` with the fixed message on `None` —
independently of B's result. -/
theorem last_delivered_completion_wins (s : AppState) (rB rA : Option WeatherData) :
    specView (handleWeatherResult (handleWeatherResult s rB) rA) =
      some (match rA with
            | some w => ViewState.Showing w s.use_celsius
            | none => ViewState.Failed failMessage) := by
  cases rA <;> cases rB <;> rfl

/-- C4: the by-location task short-circuits: when the location resolver
returns `none` the task yields the failure value with zero weather-provider
requests; when it returns a location, the task is exactly the weather
resolver applied to that location's city. -/
theorem by_location_short_circuit (key : String) (ip : IpOutcome)
    (net : String → HttpOutcome) :
    (getLocationFromIp ip = none →
      fetchByLocationTask key ip net = (Except.ok none, 0)) ∧
    (∀ l, getLocationFromIp ip = some l →
      fetchByLocationTask key ip net = getWeather key net l.city) := by
  constructor
  · intro h
    simp [fetchByLocationTask, h]
  · intro l h
    simp [fetchByLocationTask, h]

/-- Witness for C4: the location provider times out, so the task fails
with weather-provider call count zero. -/
theorem by_location_short_circuit_witness :
    fetchByLocationTask "configured-key" IpOutcome.transportError
      (fun _ => HttpOutcome.transportError) = (Except.ok none, 0) :=
  (by_location_short_circuit "configured-key" IpOutcome.transportError
    (fun _ => HttpOutcome.transportError)).1 rfl

/-- C6: on a failed fetch the handler packs the error display with the
fixed message — the spec-level state becomes `Failed` — and the stored
reading, the unit preference and the card contents are all left exactly as
they were. -/
theorem failure_preserves_reading (s : AppState) :
    handleWeatherResult s none = { s with packed := Packed.error failMessage } ∧
    specView (handleWeatherResult s none) = some (ViewState.Failed failMessage) ∧
    (handleWeatherResult s none).current_weather = s.current_weather ∧
    (handleWeatherResult s none).use_celsius = s.use_celsius ∧
    (handleWeatherResult s none).cardReading = s.cardReading :=
  ⟨rfl, rfl, rfl, rfl, rfl⟩

/-- C8: with the sentinel credential active, `get_weather` returns the
fixed synthetic reading for every query and every network behaviour, with
zero network requests performed, and that reading's city is "Demo City". -/
theorem demo_mode_fixed_reading (net : String → HttpOutcome) (query : String) :
    getWeather sentinelKey net query = (Except.ok (some demoWeather), 0) ∧
    demoWeather.city = "Demo City" :=
  ⟨rfl, rfl⟩

/-- C10: a task that returns a value (including `None`) has its callback
scheduled exactly once with that value; a task that raises schedules no
callback at all, and delivering that empty schedule leaves the app state —
hence the ViewState — exactly as it was, with no transition to Failed. -/
theorem async_runner_callback_discipline (v : Option WeatherData) (e : PyError)
    (s : AppState) :
    asyncRunnerScheduled (Except.ok v) = [v] ∧
    asyncRunnerScheduled (Except.error e) = ([] : List (Option WeatherData)) ∧
    deliverAll s (asyncRunnerScheduled (Except.error e)) = s :=
  ⟨rfl, rfl, rfl⟩

/-- Inversion of parsing: a reading is only ever produced from a response
in which every required field is present, and then each field of the
reading is the corresponding response field — no partial reading exists. -/
theorem parse_complete {j : WeatherJson} {w : WeatherData}
    (h : parseWeatherJson j = Except.ok w) :
    j = { location := some { name := some w.city,
                             region := some w.region,
                             country := some w.country },
          current := some { temp_c := some w.temp_c,
                            temp_f := some w.temp_f,
                            feelslike_c := some w.feels_like_c,
                            feelslike_f := some w.feels_like_f,
                            humidity := some w.humidity,
                            wind_kph := some w.wind_kph,
                            wind_mph := some w.wind_mph,
                            condition := some { text := some w.condition,
                                                icon := some w.condition_icon },
                            uv := some w.uv,
                            last_updated := some w.last_updated } } := by
  obtain ⟨lo, cu⟩ := j
  rcases lo with _ | ⟨n, r, co⟩
  · exact Except.noConfusion h
  rcases cu with _ | ⟨tc, tf, fc, ff, hu, wk, wm, cd, uvv, lu⟩
  · exact Except.noConfusion h
  rcases n with _ | n
  · exact Except.noConfusion h
  rcases r with _ | r
  · exact Except.noConfusion h
  rcases co with _ | co
  · exact Except.noConfusion h
  rcases tc with _ | tc
  · exact Except.noConfusion h
  rcases tf with _ | tf
  · exact Except.noConfusion h
  rcases fc with _ | fc
  · exact Except.noConfusion h
  rcases ff with _ | ff
  · exact Except.noConfusion h
  rcases hu with _ | hu
  · exact Except.noConfusion h
  rcases wk with _ | wk
  · exact Except.noConfusion h
  rcases wm with _ | wm
  · exact Except.noConfusion h
  rcases cd with _ | ⟨ct, ci⟩
  · exact Except.noConfusion h
  rcases ct with _ | ct
  · exact Except.noConfusion h
  rcases ci with _ | ci
  · exact Except.noConfusion h
  rcases uvv with _ | uvv
  · exact Except.noConfusion h
  rcases lu with _ | lu
  · exact Except.noConfusion h
  injection h with h2
  subst h2
  rfl

/-- C1 (amended): with a configured key, `get_weather` returns `None` and
does not raise on every requests-level failure — transport error, HTTP
error status (>= 400, `raise_for_status`), undecodable body — and any
reading it does return is complete, every field copied from a present
response field (all-or-nothing). The missing-required-field case is
excluded: there a `KeyError` escapes to the caller. -/
theorem resolve_weather_failure_contract (key query : String)
    (net : String → HttpOutcome) (hkey : key ≠ sentinelKey) :
    (net query = HttpOutcome.transportError →
      getWeather key net query = (Except.ok none, 1)) ∧
    (∀ st body, net query = HttpOutcome.response st body → 400 ≤ st →
      getWeather key net query = (Except.ok none, 1)) ∧
    (∀ st, net query = HttpOutcome.response st none → st < 400 →
      getWeather key net query = (Except.ok none, 1)) ∧
    (∀ j w, parseWeatherJson j = Except.ok w →
      j = { location := some { name := some w.city,
                               region := some w.region,
                               country := some w.country },
            current := some { temp_c := some w.temp_c,
                              temp_f := some w.temp_f,
                              feelslike_c := some w.feels_like_c,
                              feelslike_f := some w.feels_like_f,
                              humidity := some w.humidity,
                              wind_kph := some w.wind_kph,
                              wind_mph := some w.wind_mph,
                              condition := some { text := some w.condition,
                                                  icon := some w.condition_icon },
                              uv := some w.uv,
                              last_updated := some w.last_updated } }) := by
  refine ⟨?_, ?_, ?_, fun j w h => parse_complete h⟩
  · intro h
    unfold getWeather
    rw [if_neg hkey, h]
  · intro st body h hst
    unfold getWeather
    rw [if_neg hkey, h]
    simp [if_pos hst]
  · intro st h hst
    unfold getWeather
    rw [if_neg hkey, h]
    simp [Nat.not_le.mpr hst]

/-- Witness for C1 (amended) at a transport failure. -/
theorem resolve_weather_failure_contract_witness :
    getWeather "configured-key" (fun _ => HttpOutcome.transportError) "Paris" =
      (Except.ok none, 1) :=
  (resolve_weather_failure_contract "configured-key" "Paris"
    (fun _ => HttpOutcome.transportError) (by decide)).1 rfl

/-- C1 (counterexample): a 2xx response whose decoded body lacks the
required "location" field makes `get_weather` raise `KeyError` to its
caller instead of returning `None`. -/
theorem missing_field_raises :
    getWeather "configured-key"
      (fun _ => HttpOutcome.response 200 (some { location := none, current := none }))
      "Paris" = (Except.error (PyError.keyError "location"), 1) ∧
    (Except.error (PyError.keyError "location"), 1) ≠
      ((Except.ok none : Except PyError (Option WeatherData)), 1) :=
  ⟨rfl, by intro hcontra; injection hcontra with h1 h2; exact Except.noConfusion h1⟩

/-- Response body with every required field present, used to state C5. -/
def fullBody (name region country ctext cicon lu : String)
    (tc tf flc flf wk wm uvv : Rat) (hum : Int) : WeatherJson :=
  { location := some { name := some name,
                       region := some region,
                       country := some country },
    current := some { temp_c := some tc,
                      temp_f := some tf,
                      feelslike_c := some flc,
                      feelslike_f := some flf,
                      humidity := some hum,
                      wind_kph := some wk,
                      wind_mph := some wm,
                      condition := some { text := some ctext,
                                          icon := some cicon },
                      uv := some uvv,
                      last_updated := some lu } }

/-- The reading C5 expects: each field verbatim the corresponding response
field of `fullBody` at the same arguments. -/
def verbatimReading (name region country ctext cicon lu : String)
    (tc tf flc flf wk wm uvv : Rat) (hum : Int) : WeatherData :=
  { city := name, region := region, country := country,
    temp_c := tc, temp_f := tf, feels_like_c := flc, feels_like_f := flf,
    humidity := hum, wind_kph := wk, wind_mph := wm,
    condition := ctext, condition_icon := cicon, uv := uvv,
    last_updated := lu }

/-- C5: a successful fetch of a fully-populated 2xx response parses to the
reading whose every field is copied verbatim from the response — in
particular `temp_f` is the response's own `temp_f`, independent of
`temp_c`, so no unit conversion happens anywhere — and delivering it to
the handler yields the spec-level state `Showing` that reading under the
current unit preference. -/
theorem successful_fetch_verbatim (s : AppState) (key query : String)
    (net : String → HttpOutcome)
    (name region country ctext cicon lu : String)
    (tc tf flc flf wk wm uvv : Rat) (hum : Int)
    (hkey : key ≠ sentinelKey)
    (hnet : net query = HttpOutcome.response 200
      (some (fullBody name region country ctext cicon lu tc tf flc flf wk wm uvv hum))) :
    getWeather key net query =
      (Except.ok (some (verbatimReading name region country ctext cicon lu
        tc tf flc flf wk wm uvv hum)), 1) ∧
    specView (handleWeatherResult s
        (some (verbatimReading name region country ctext cicon lu
          tc tf flc flf wk wm uvv hum))) =
      some (ViewState.Showing (verbatimReading name region country ctext cicon lu
        tc tf flc flf wk wm uvv hum) s.use_celsius) ∧
    (verbatimReading name region country ctext cicon lu
      tc tf flc flf wk wm uvv hum).temp_f = tf ∧
    (verbatimReading name region country ctext cicon lu
      tc tf flc flf wk wm uvv hum).temp_c = tc ∧
    (verbatimReading name region country ctext cicon lu
      tc tf flc flf wk wm uvv hum).city = name ∧
    (verbatimReading name region country ctext cicon lu
      tc tf flc flf wk wm uvv hum).humidity = hum := by
  refine ⟨?_, rfl, rfl, rfl, rfl, rfl⟩
  unfold getWeather
  rw [if_neg hkey, hnet]
  rfl

/-- Witness for C5 at the end-to-end scenario 1 data. -/
theorem successful_fetch_verbatim_witness :
    getWeather "configured-key"
      (fun _ => HttpOutcome.response 200
        (some (fullBody "Paris" "Ile-de-France" "FR" "Clear" "icon.png"
          "2024-01-01 12:00" 18.0 64.4 17.0 62.6 10.0 6.2 4.0 70)))
      "Paris" =
      (Except.ok (some (verbatimReading "Paris" "Ile-de-France" "FR" "Clear"
        "icon.png" "2024-01-01 12:00" 18.0 64.4 17.0 62.6 10.0 6.2 4.0 70)), 1) :=
  (successful_fetch_verbatim initialState "configured-key" "Paris"
    (fun _ => HttpOutcome.response 200
      (some (fullBody "Paris" "Ile-de-France" "FR" "Clear" "icon.png"
        "2024-01-01 12:00" 18.0 64.4 17.0 62.6 10.0 6.2 4.0 70)))
    "Paris" "Ile-de-France" "FR" "Clear" "icon.png" "2024-01-01 12:00"
    18.0 64.4 17.0 62.6 10.0 6.2 4.0 70 (by decide) rfl).1

end Weather
